import Mathlib

/-!
Shallow embedding of the nrf-hal core drivers and proofs about them.

The embedding covers the parts of the repository that the verified
properties are about:

* `src/nrf-hal-common/src/saadc.rs` — the SAADC DMA transfer engine
  (`Saadc::dma_transfer`, `Transfer::wait`, `Transfer::enqueue_next_transfer`,
  `Drop for Transfer`, and their helpers);
* `src/nrf-hal-common/src/ppi.rs` — the PPI channel bank (`enable`/`disable`,
  endpoint wiring, the `ppi!` macro invocation producing `Parts`);
* `src/nrf52-hal-common/src/uarte_stream.rs` — the streaming bridge
  (`UarteStreamer::rip_and_grip`, `stream_handler`).

Register state is modelled as plain records of natural numbers and booleans;
machine-integer casts are made explicit with `% 2^32` / `% 2^16`.  Each
hardware-visible side effect (a register write or a compiler fence) is also
recorded in an explicit trace, so that ordering properties of the source can
be stated.  Busy-wait loops are modelled by their exit condition: theorems
about `wait` hypothesise that the completion flag is set, which is exactly
the state in which the source's polling loop terminates.
-/

namespace NrfHal

/-- Truncation to a 32-bit machine integer, for the source's `as u32` casts. -/
def u32 (n : Nat) : Nat := n % 2 ^ 32

/-- Truncation to a 16-bit machine integer, for the source's `as u16` casts
(the `rx.len as _` cast feeding the `MAXCNT` register write). -/
def u16 (n : Nat) : Nat := n % 2 ^ 16

/-! ## SAADC: data model (`saadc.rs`) -/

/-- The `Error` enum of `saadc.rs`. -/
inductive Error where
  | RxBufferTooLong
  | DMABufferNotInDataMemory
  | Transmit
  | Receive
  | NextTransferAlreadyEnqueued
  | CurrentTransferStillPending
deriving DecidableEq

/-- `DmaSlice \x7b ptr: u32, len: u32 \x7d` from the crate root, as constructed by
`wb_to_dma_slice`. -/
structure DmaSlice where
  ptr : Nat
  len : Nat
deriving DecidableEq

/-- A `WriteBuffer` (`RxB`): `write_buffer()` yields a pointer and a length in
words; `wordSize` is `core::mem::size_of::<Word>()`. -/
structure Buffer where
  ptr : Nat
  len : Nat
  wordSize : Nat
deriving DecidableEq

/-- `wb_to_dma_slice`: `ptr as usize as u32` and `(len * size_of::<Word>()) as u32`. -/
def wb_to_dma_slice (wb : Buffer) : DmaSlice :=
  { ptr := u32 wb.ptr, len := u32 (wb.len * wb.wordSize) }

/-- Modelled from the spec: `EASY_DMA_SIZE` lives in
`nrf-hal-common/src/target_constants.rs`, which is not among the provided
source files.  The spec calls it "the hardware's maximum DMA transfer
length"; the value below is the nRF52840 one (the board in this repository).
No verified property depends on the numeric value, only on the comparison
against it. -/
def EASY_DMA_SIZE : Nat := 65535

/-- The SAADC register block state, restricted to the registers the verified
operations read or write.  `events_end` and `events_started` are event
registers (nonzero-when-fired, cleared by software); `result_amount` is the
hardware-reported transferred length, written only by the hardware. -/
structure SAADCRegs where
  enable : Bool
  result_ptr : Nat
  result_maxcnt : Nat
  result_amount : Nat
  events_end : Bool
  events_started : Bool
deriving DecidableEq

/-- `Saadc` handle: exclusively owns the peripheral register block and the
analog pin (`AdcPin = Option<Pin<Input<Floating>>>`, kept abstract). -/
structure Saadc where
  periph : SAADCRegs
  pin : Option Unit
deriving DecidableEq

/-- One hardware-visible action of the SAADC driver: a compiler fence or a
register write, in program order. -/
inductive RegOp where
  | fence
  | resultPtrWrite (v : Nat)
  | resultMaxcntWrite (v : Nat)
  | eventsEndClear
  | tasksStartWrite (v : Nat)
  | eventsStartedClear
  | enableWrite (enabled : Bool)
deriving DecidableEq

/-- `Saadc::set_dma_values`: fence; write `RESULT.PTR`; write `RESULT.MAXCNT`
(with the source's `as _` truncating cast); fence. -/
def Saadc.set_dma_values (s : Saadc) (rx : DmaSlice) : Saadc × List RegOp :=
  ({ s with periph := { s.periph with
        result_ptr := u32 rx.ptr, result_maxcnt := u16 rx.len } },
   [.fence, .resultPtrWrite (u32 rx.ptr), .resultMaxcntWrite (u16 rx.len), .fence])

/-- `Saadc::start_adc_dma_transfer`: fence; `set_dma_values`; clear
`EVENTS_END`; write `1` to `TASKS_START`; fence. -/
def Saadc.start_adc_dma_transfer (s : Saadc) (rx : DmaSlice) : Saadc × List RegOp :=
  let p := s.set_dma_values rx
  let s1 := p.1
  let s2 := { s1 with periph := { s1.periph with events_end := false } }
  (s2, [RegOp.fence] ++ p.2 ++ [.eventsEndClear, .tasksStartWrite 1, .fence])

/-- `Saadc::complete_adc_dma_transfer`: clear `EVENTS_END`; fence; read
`RESULT.AMOUNT`; fail with `Error::Receive` when it differs from the
requested length, otherwise return the amount. -/
def Saadc.complete_adc_dma_transfer (s : Saadc) (rx : DmaSlice) :
    Saadc × Except Error Nat × List RegOp :=
  let s1 := { s with periph := { s.periph with events_end := false } }
  let trace : List RegOp := [.eventsEndClear, .fence]
  let rx_amt := s1.periph.result_amount
  if rx_amt ≠ rx.len then (s1, .error .Receive, trace)
  else (s1, .ok rx_amt, trace)

/-- `Saadc::is_adc_dma_transfer_complete`: `EVENTS_END` read nonzero. -/
def Saadc.is_adc_dma_transfer_complete (s : Saadc) : Bool :=
  s.periph.events_end

/-- `InnerTransfer`: the live payload of a `Transfer` — the granted buffer,
the exclusively owned peripheral handle, and the double-buffering flag. -/
structure InnerTransfer where
  rx_buffer : Buffer
  saadc : Saadc
  next_queued : Bool
deriving DecidableEq

/-- `Transfer`: wraps the payload in an `Option` that `wait` and `Drop` take
out of. -/
structure Transfer where
  inner : Option InnerTransfer
deriving DecidableEq

/-- `PendingTransfer`: holds the enqueued next buffer (`PhantomData<Saadc>`
carries no state). -/
structure PendingTransfer where
  rx_buffer : Buffer
deriving DecidableEq

/-- `Saadc::dma_transfer`: reject with `RxBufferTooLong` when the byte length
exceeds `EASY_DMA_SIZE`, returning the handle with the error (the buffer is
consumed — the `Err` type is `(Self, Error)`); otherwise run
`start_adc_dma_transfer` and return a `Transfer` owning buffer and handle. -/
def Saadc.dma_transfer (s : Saadc) (rx_buffer : Buffer) :
    Except (Saadc × Error) Transfer × List RegOp :=
  let rx_dma := wb_to_dma_slice rx_buffer
  if rx_dma.len > EASY_DMA_SIZE then
    (.error (s, .RxBufferTooLong), [])
  else
    let p := s.start_adc_dma_transfer rx_dma
    (.ok { inner := some { rx_buffer, saadc := p.1, next_queued := false } }, p.2)

/-- `Transfer::wait`, modelled at the state in which its busy-poll
(`while !is_adc_dma_transfer_complete()`) has terminated, i.e. `EVENTS_END`
is set: fence; `complete_adc_dma_transfer` with the `Result` DISCARDED by
`.ok()`; return the buffer and the handle.  The returned tuple has no error
component, exactly like the source signature `fn wait(self) -> (RxB, Saadc)`. -/
def InnerTransfer.wait (i : InnerTransfer) : Buffer × Saadc × List RegOp :=
  let c := i.saadc.complete_adc_dma_transfer (wb_to_dma_slice i.rx_buffer)
  (i.rx_buffer, c.1, [RegOp.fence] ++ c.2.2)

/-- The error component observable in `wait`'s return value.  The source
signature is `fn wait(self) -> (RxB, Saadc)`: there is no error channel, so
no error is ever observable, whatever the hardware reported. -/
def InnerTransfer.wait_observed_error (_i : InnerTransfer) : Option Error :=
  none

/-- Rendering of the spec's words for `wait` on the completed transfer: it
"fails with a `Receive` mismatch if [the hardware-reported length] differs
from the requested length", i.e. the returned error component should be
`Receive` exactly on a mismatch.  Kept separate from the code-derived
definitions so the two can be compared. -/
def wait_error_per_spec (i : InnerTransfer) : Option Error :=
  if i.saadc.periph.result_amount ≠ (wb_to_dma_slice i.rx_buffer).len then
    some .Receive
  else
    none

instance {ε α : Type} [DecidableEq ε] [DecidableEq α] : DecidableEq (Except ε α) := fun a b =>
  match a, b with
  | .error x, .error y =>
      if h : x = y then .isTrue (by rw [h]) else .isFalse (by simp [h])
  | .ok x, .ok y =>
      if h : x = y then .isTrue (by rw [h]) else .isFalse (by simp [h])
  | .error _, .ok _ => .isFalse (by simp)
  | .ok _, .error _ => .isFalse (by simp)

/-- Outcome of `Transfer::enqueue_next_transfer`: the updated transfer
payload (the source method takes `&mut self`), the `Result`, and the trace
of register writes it performed. -/
structure EnqueueOutcome where
  inner : InnerTransfer
  result : Except (Buffer × Error) PendingTransfer
  trace : List RegOp
deriving DecidableEq

/-- `Transfer::enqueue_next_transfer`: reject `RxBufferTooLong` on an
oversized buffer; reject `NextTransferAlreadyEnqueued` when `next_queued` is
already set; read `EVENTS_STARTED` and reject `CurrentTransferStillPending`
when it is clear; otherwise clear `EVENTS_STARTED`, set `next_queued`, run
`set_dma_values` and hand back a `PendingTransfer`.  Every rejection carries
the caller's buffer. -/
def InnerTransfer.enqueue_next_transfer (i : InnerTransfer) (rx_buffer : Buffer) :
    EnqueueOutcome :=
  let rx_dma := wb_to_dma_slice rx_buffer
  if rx_dma.len > EASY_DMA_SIZE then
    { inner := i, result := .error (rx_buffer, .RxBufferTooLong), trace := [] }
  else if i.next_queued then
    { inner := i, result := .error (rx_buffer, .NextTransferAlreadyEnqueued), trace := [] }
  else if i.saadc.periph.events_started then
    let i1 := { i with saadc :=
      { i.saadc with periph := { i.saadc.periph with events_started := false } } }
    let i2 := { i1 with next_queued := true }
    let p := i2.saadc.set_dma_values rx_dma
    { inner := { i2 with saadc := p.1 },
      result := .ok { rx_buffer },
      trace := [RegOp.eventsStartedClear] ++ p.2 }
  else
    { inner := i, result := .error (rx_buffer, .CurrentTransferStillPending), trace := [] }

/-- `Drop for Transfer`: when the payload is still present (the transfer was
discarded without `wait`), fence and write the `ENABLE` register to
disabled; when `wait` already took the payload, do nothing. -/
def Transfer.drop (t : Transfer) : Option Saadc × List RegOp :=
  match t.inner with
  | some inner =>
      (some { inner.saadc with periph := { inner.saadc.periph with enable := false } },
       [.fence, .enableWrite false])
  | none => (none, [])

/-! ## PPI: data model (`ppi.rs`) -/

/-- The PPI register block state, restricted to the registers the verified
operations write: the channel-enable mask (driven only through the CHENSET /
CHENCLR set/clear registers) and the per-channel endpoint registers. -/
structure PpiRegs where
  chen : Nat
  tep : List Nat
  eep : List Nat
  fork_tep : List Nat
deriving DecidableEq

/-- One register write of the PPI driver, in program order. -/
inductive PpiOp where
  | chensetWrite (v : Nat)
  | chenclrWrite (v : Nat)
  | tepWrite (ch : Nat) (v : Nat)
  | eepWrite (ch : Nat) (v : Nat)
  | forkTepWrite (ch : Nat) (v : Nat)
deriving DecidableEq

/-- All-ones 32-bit mask. -/
def U32_MASK : Nat := 2 ^ 32 - 1

/-- Hardware semantics of the CHENSET register (spec §6: "write 1 = set",
never read-modify-write): writing `v` sets exactly the bits of `v`. -/
def chenset_write (chen v : Nat) : Nat := chen ||| (v &&& U32_MASK)

/-- Hardware semantics of the CHENCLR register (spec §6: "write 1 = clear"):
writing `v` clears exactly the bits of `v`.  Bitwise and-not is expressed as
a conjunction with the 32-bit complement of `v`. -/
def chenclr_write (chen v : Nat) : Nat := chen &&& (U32_MASK ^^^ (v &&& U32_MASK))

/-- `Ppi::enable` for a channel token with `P::CH = ch`: one write of
`1 << CH` to CHENSET.  The written value depends only on the channel
constant, never on the current register state. -/
def Ppi.enable (s : PpiRegs) (ch : Nat) : PpiRegs × List PpiOp :=
  ({ s with chen := chenset_write s.chen (1 <<< ch) }, [.chensetWrite (1 <<< ch)])

/-- `Ppi::disable`: one write of `1 << CH` to CHENCLR. -/
def Ppi.disable (s : PpiRegs) (ch : Nat) : PpiRegs × List PpiOp :=
  ({ s with chen := chenclr_write s.chen (1 <<< ch) }, [.chenclrWrite (1 <<< ch)])

/-- A Rust `&T` reference to a task register of an enumerated peripheral:
the register address it refers to.  Only types in the `impl Task for ...`
allow-list of `ppi.rs` can appear here (the trait is sealed). -/
structure TaskRegRef where
  addr : Nat
deriving DecidableEq

/-- A Rust `&T` reference to an event register of an enumerated peripheral
(sealed `Event` allow-list). -/
structure EventRegRef where
  addr : Nat
deriving DecidableEq

/-- `TaskAddr(pub(crate) u32)`. -/
structure TaskAddr where
  val : Nat
deriving DecidableEq

/-- `EventAddr(pub(crate) u32)`. -/
structure EventAddr where
  val : Nat
deriving DecidableEq

/-- `sealed::Task::task_addr`, exactly as written in the source:
`TaskAddr(&self as *const _ as u32)`.  Inside the method `self : &Self`, so
`&self` has type `&&Self`: it is the address of the stack slot holding the
reference `self`, not the task register address that `self` itself holds.
`slot` is the address of that stack slot, supplied by the execution
environment; the register address `selfRef.addr` is discarded. -/
def task_addr (_selfRef : TaskRegRef) (slot : Nat) : TaskAddr :=
  { val := u32 slot }

/-- `sealed::Event::event_addr`, same `&self as *const _ as u32` shape. -/
def event_addr (_selfRef : EventRegRef) (slot : Nat) : EventAddr :=
  { val := u32 slot }

/-- Modelled from the spec: the endpoint address the spec says gets wired —
"that task's ... hardware register address", i.e. the address the reference
itself holds (`self as *const _ as u32`).  Kept separate from the
code-derived `task_addr` so the two can be compared. -/
def task_addr_per_spec (selfRef : TaskRegRef) : TaskAddr :=
  { val := u32 selfRef.addr }

/-- `ConfigurablePpi::set_task_endpoint` for `P::CH = ch`: writes
`task.task_addr().0` into `CH[CH].TEP`.  `slot` is the stack address at
which the `self` reference of `task_addr` lives during the call. -/
def ConfigurablePpi.set_task_endpoint (s : PpiRegs) (ch : Nat) (task : TaskRegRef)
    (slot : Nat) : PpiRegs × List PpiOp :=
  ({ s with tep := s.tep.set ch (task_addr task slot).val },
   [.tepWrite ch (task_addr task slot).val])

/-- `ConfigurablePpi::set_event_endpoint`: writes `event.event_addr().0`
into `CH[CH].EEP`. -/
def ConfigurablePpi.set_event_endpoint (s : PpiRegs) (ch : Nat) (event : EventRegRef)
    (slot : Nat) : PpiRegs × List PpiOp :=
  ({ s with eep := s.eep.set ch (event_addr event slot).val },
   [.eepWrite ch (event_addr event slot).val])

/-- `Ppi::set_fork_task_endpoint`: writes `task.task_addr().0` into
`FORK[CH].TEP`. -/
def Ppi.set_fork_task_endpoint (s : PpiRegs) (ch : Nat) (task : TaskRegRef)
    (slot : Nat) : PpiRegs × List PpiOp :=
  ({ s with fork_tep := s.fork_tep.set ch (task_addr task slot).val },
   [.forkTepWrite ch (task_addr task slot).val])

/-- A channel token produced by the `ppi!` macro: its `P::CH` constant and
whether its type also implements `NotFixed` (i.e. `ConfigurablePpi`). -/
structure ChannelToken where
  ch : Nat
  configurable : Bool
deriving DecidableEq

/-- The `not_fixed:` channel list of the `ppi!` invocation: channels 0–15
always, 16–19 gated behind `cfg(not(feature = "51"))`. -/
def not_fixed_channels (feature51 : Bool) : List Nat :=
  [0, 1, 2, 3, 4, 5, 6, 7, 8, 9, 10, 11, 12, 13, 14, 15]
    ++ (if feature51 then [] else [16, 17, 18, 19])

/-- The `fixed:` channel list of the `ppi!` invocation: channels 20–31. -/
def fixed_channels : List Nat :=
  [20, 21, 22, 23, 24, 25, 26, 27, 28, 29, 30, 31]

/-- The shared PPI register block handle (`PPI` from the PAC): a singleton
value that `Parts::new` consumes by move. -/
inductive PPIBlock where
  | mk
deriving DecidableEq

/-- `Parts`: one field per channel token, here flattened into the ordered
list of tokens the struct literal in `Parts::new` fills in. -/
structure Parts where
  tokens : List ChannelToken
deriving DecidableEq

/-- `Parts::new(_regs: PPI)`: consumes the register block and constructs one
token for every declared channel — the configurable ones first, then the
fixed ones, exactly as the `ppi!` invocation lists them. -/
def Parts.new (_regs : PPIBlock) (feature51 : Bool) : Parts :=
  { tokens :=
      (not_fixed_channels feature51).map (fun n => { ch := n, configurable := true })
        ++ fixed_channels.map (fun n => { ch := n, configurable := false }) }

/-- Move semantics of `Parts::new(regs: PPI)`: the caller's ownership of the
register block is modelled as an `Option PPIBlock`; splitting consumes it,
so a second split finds nothing to consume and can produce no tokens. -/
def split_bank (regs : Option PPIBlock) (feature51 : Bool) :
    Option Parts × Option PPIBlock :=
  match regs with
  | some r => (some (Parts.new r feature51), none)
  | none => (none, none)

/-! ## UARTE streaming bridge: data model (`uarte_stream.rs`) -/

/-- The `UARTE0` peripheral handle (a singleton register-block handle). -/
inductive UARTE0 where
  | mk
deriving DecidableEq

/-- A `heapless::RingBuffer<u8, U1024, u16>`, identified by its storage. -/
structure RingBuf where
  id : Nat
deriving DecidableEq

/-- A `Producer` half of a split ring buffer, tied to its storage. -/
structure Producer where
  ring : Nat
deriving DecidableEq

/-- A `Consumer` half of a split ring buffer, tied to its storage. -/
structure Consumer where
  ring : Nat
deriving DecidableEq

/-- `RingBuffer::split`: one producer half and one consumer half over the
same storage. -/
def RingBuf.split (r : RingBuf) : Producer × Consumer :=
  ({ ring := r.id }, { ring := r.id })

/-- A raw `&mut [u8]` scratch buffer, identified by its storage. -/
structure RawBuf where
  id : Nat
deriving DecidableEq

/-- `TxHandle`: the application-facing write path (holds the transmit
producer half). -/
structure TxHandle where
  sender : Producer
deriving DecidableEq

/-- `RxHandle`: the application-facing read path (holds the receive
consumer half). -/
structure RxHandle where
  receiver : Consumer
deriving DecidableEq

/-- `UarteStreamer`: the peripheral plus both ring buffers and both scratch
buffers, before streaming starts. -/
structure UarteStreamer where
  periph : UARTE0
  tx_ring : RingBuf
  tx_buf : RawBuf
  rx_ring : RingBuf
  rx_buf : RawBuf
deriving DecidableEq

/-- `Context`: the peripheral-facing halves, the scratch buffers, and the
peripheral, stored in the `static mut CONTEXT` for the interrupt handler. -/
structure Context where
  tx_recv : Consumer
  tx_buf : RawBuf
  rx_send : Producer
  rx_buf : RawBuf
  periph : UARTE0
deriving DecidableEq

/-- A runtime abort of the Rust program; `unimplemented` is the
`unimplemented!()` macro's panic. -/
inductive RustAbort where
  | unimplemented
deriving DecidableEq

/-- Process-wide streaming state: the `static mut CONTEXT` cell and whether
`uarte::set_interrupt_handler` has been called. -/
structure StreamWorld where
  context : Option Context
  handler_installed : Bool
deriving DecidableEq

/-- `fn stream_handler() -> ()`: the installed interrupt handler.  Its body
is empty (the `unimplemented!()` inside it is commented out), so it performs
no action at all. -/
def stream_handler : Unit := ()

/-- `UarteStreamer::rip_and_grip`, step by step as in the source: split both
ring buffers; build the `Context` from the transmit consumer half, the
receive producer half, both scratch buffers and the peripheral; store it in
the `static mut CONTEXT`; call `uarte::set_interrupt_handler`; and then hit
`unimplemented!()` — the function aborts and the `(TxHandle, RxHandle)` pair
promised by its signature is never produced. -/
def UarteStreamer.rip_and_grip (s : UarteStreamer) (w : StreamWorld) :
    StreamWorld × Except RustAbort (TxHandle × RxHandle) :=
  let tx_halves := s.tx_ring.split
  let rx_halves := s.rx_ring.split
  let context : Context :=
    { tx_recv := tx_halves.2, tx_buf := s.tx_buf,
      rx_send := rx_halves.1, rx_buf := s.rx_buf, periph := s.periph }
  let w1 := { w with context := some context }
  let w2 := { w1 with handler_installed := true }
  (w2, .error .unimplemented)

/-! ## Concrete inputs used by witnesses and counterexamples -/

/-- A small RAM buffer: 4 two-byte words at `0x20000000` (8 DMA bytes). -/
def bufSmall : Buffer := { ptr := 0x20000000, len := 4, wordSize := 2 }

/-- An oversized buffer: 40000 two-byte words, 80000 DMA bytes. -/
def bufBig : Buffer := { ptr := 0x20000100, len := 40000, wordSize := 2 }

/-- A second, distinct oversized buffer. -/
def bufBig2 : Buffer := { ptr := 0x20000200, len := 50000, wordSize := 2 }

/-- An idle SAADC register state. -/
def saadcRegs0 : SAADCRegs :=
  { enable := true, result_ptr := 0, result_maxcnt := 0, result_amount := 0,
    events_end := false, events_started := false }

/-- An idle SAADC handle. -/
def saadc0 : Saadc := { periph := saadcRegs0, pin := none }

/-- A completed transfer whose hardware-reported amount (6) differs from the
requested DMA length of `bufSmall` (8 bytes). -/
def innerMismatch : InnerTransfer :=
  { rx_buffer := bufSmall,
    saadc := { periph := { saadcRegs0 with events_end := true, result_amount := 6 },
               pin := none },
    next_queued := false }

/-- An in-flight transfer whose next buffer is already enqueued. -/
def innerQueued : InnerTransfer :=
  { rx_buffer := bufSmall, saadc := saadc0, next_queued := true }

/-- An in-flight transfer with nothing enqueued and `EVENTS_STARTED` clear. -/
def innerFresh : InnerTransfer :=
  { rx_buffer := bufSmall, saadc := saadc0, next_queued := false }

/-- A PPI register state with an arbitrary enable mask and zeroed endpoint
registers. -/
def ppiRegs0 : PpiRegs :=
  { chen := 0x00F0F0F0, tep := List.replicate 32 0, eep := List.replicate 32 0,
    fork_tep := List.replicate 32 0 }

/-- A task register of an enumerated peripheral (SAADC `TASKS_START`). -/
def taskStart : TaskRegRef := { addr := 0x40007000 }

/-- The stack address at which the `self` reference of `task_addr` happens
to live during the call. -/
def stackSlot : Nat := 0x2000FFB0

/-- A streamer over distinct ring and scratch storages. -/
def streamer0 : UarteStreamer :=
  { periph := .mk, tx_ring := { id := 1 }, tx_buf := { id := 3 },
    rx_ring := { id := 2 }, rx_buf := { id := 4 } }

/-- The process state before streaming starts: no context, no handler. -/
def world0 : StreamWorld := { context := none, handler_installed := false }

/-! ## Claim theorems -/

/-- C9: discarding a `Transfer` without calling `wait` — i.e. dropping one
whose payload is still present — issues a compiler fence and then writes the
`ENABLE` register to disabled, for every such transfer. -/
theorem c9_drop_disables (i : InnerTransfer) :
    Transfer.drop { inner := some i }
      = (some { i.saadc with periph := { i.saadc.periph with enable := false } },
         [RegOp.fence, RegOp.enableWrite false]) := rfl

/-- C7: splitting the channel register block (on the 32-channel chips, the
configuration this repository's board uses) yields exactly one token per
channel index 0–31 — the token indices are precisely `List.range 32`, hence
distinct and exhaustive — and splitting consumes the register block, so a
second split finds nothing and yields no tokens. -/
theorem c7_split_tokens :
    ((Parts.new PPIBlock.mk false).tokens.map ChannelToken.ch = List.range 32)
    ∧ ((Parts.new PPIBlock.mk false).tokens.length = 32)
    ∧ (split_bank (some PPIBlock.mk) false
        = (some (Parts.new PPIBlock.mk false), none))
    ∧ (split_bank (split_bank (some PPIBlock.mk) false).2 false = (none, none)) := by
  refine ⟨by decide, by decide, rfl, rfl⟩

/-- C6: for distinct channel indices `M` and `N` below 32, `enable(N)` then
`disable(N)` leaves channel `M`'s enabled bit unchanged; moreover each of
the two operations is a single write to the CHENSET / CHENCLR set-clear
register whose value `1 << N` depends only on the channel constant, never on
the current register state — no read-modify-write. -/
theorem c6_enable_disable_frame (s : PpiRegs) (M N : Nat)
    (hM : M < 32) (_hN : N < 32) (hMN : M ≠ N) :
    ((Ppi.disable (Ppi.enable s N).1 N).1.chen.testBit M = s.chen.testBit M)
    ∧ (Ppi.enable s N).2 = [PpiOp.chensetWrite (1 <<< N)]
    ∧ (Ppi.disable (Ppi.enable s N).1 N).2 = [PpiOp.chenclrWrite (1 <<< N)] := by
  refine ⟨?_, rfl, rfl⟩
  have h1 : (1 <<< N) = 2 ^ N := by rw [Nat.shiftLeft_eq, one_mul]
  have h2 : U32_MASK = 2 ^ 32 - 1 := rfl
  simp only [Ppi.enable, Ppi.disable, chenset_write, chenclr_write, h1, h2,
    Nat.testBit_land, Nat.testBit_lor, Nat.testBit_xor,
    Nat.testBit_two_pow, Nat.testBit_two_pow_sub_one]
  simp [Ne.symm hMN, hM]

/-- C6 witness: the frame property evaluated on a concrete register state
with `M = 5`, `N = 3`. -/
theorem c6_enable_disable_frame_witness :
    ((Ppi.disable (Ppi.enable ppiRegs0 3).1 3).1.chen.testBit 5
       = ppiRegs0.chen.testBit 5)
    ∧ (Ppi.enable ppiRegs0 3).2 = [PpiOp.chensetWrite (1 <<< 3)]
    ∧ (Ppi.disable (Ppi.enable ppiRegs0 3).1 3).2 = [PpiOp.chenclrWrite (1 <<< 3)] :=
  c6_enable_disable_frame ppiRegs0 5 3 (by decide) (by decide) (by decide)

/-- C5: on an in-flight transfer (with a buffer within the DMA limit, so the
length rejection does not pre-empt the checks), a second
`enqueue_next_transfer` while the next buffer is already enqueued fails with
`NextTransferAlreadyEnqueued`, and a call made before the hardware's
`EVENTS_STARTED` flag has been observed set fails with
`CurrentTransferStillPending`; both errors carry the caller's buffer back. -/
theorem c5_enqueue_errors (i : InnerTransfer) (buf : Buffer)
    (hlen : (wb_to_dma_slice buf).len ≤ EASY_DMA_SIZE) :
    (i.next_queued = true →
      (i.enqueue_next_transfer buf).result
        = Except.error (buf, Error.NextTransferAlreadyEnqueued))
    ∧ (i.next_queued = false → i.saadc.periph.events_started = false →
      (i.enqueue_next_transfer buf).result
        = Except.error (buf, Error.CurrentTransferStillPending)) := by
  have hgt : ¬ (wb_to_dma_slice buf).len > EASY_DMA_SIZE := Nat.not_lt.2 hlen
  constructor
  · intro hq
    simp [InnerTransfer.enqueue_next_transfer, hgt, hq]
  · intro hq hs
    simp [InnerTransfer.enqueue_next_transfer, hgt, hq, hs]

/-- C5 witness: the two rejections at concrete transfers over a small
buffer. -/
theorem c5_enqueue_errors_witness :
    ((innerQueued.enqueue_next_transfer bufSmall).result
       = Except.error (bufSmall, Error.NextTransferAlreadyEnqueued))
    ∧ ((innerFresh.enqueue_next_transfer bufSmall).result
       = Except.error (bufSmall, Error.CurrentTransferStillPending)) :=
  ⟨(c5_enqueue_errors innerQueued bufSmall (by decide)).1 rfl,
   (c5_enqueue_errors innerFresh bufSmall (by decide)).2 rfl rfl⟩

/-- C10: every error return of `enqueue_next_transfer` — including the
`RxBufferTooLong` rejection on a buffer over `EASY_DMA_SIZE` — leaves the
transfer state unchanged (`next_queued`, the DMA pointer and length
registers, and `EVENTS_STARTED` all live inside the returned `inner`, which
is exactly the input), performs no register write, and the error carries the
caller's buffer. -/
theorem c10_enqueue_error_frame (i : InnerTransfer) (buf b : Buffer) (e : Error)
    (h : (i.enqueue_next_transfer buf).result = Except.error (b, e)) :
    b = buf ∧ (i.enqueue_next_transfer buf).inner = i
      ∧ (i.enqueue_next_transfer buf).trace = [] := by
  by_cases h1 : (wb_to_dma_slice buf).len > EASY_DMA_SIZE
  · simp_all [InnerTransfer.enqueue_next_transfer, h1]
  · by_cases h2 : i.next_queued
    · simp_all [InnerTransfer.enqueue_next_transfer, h1, h2]
      exact ⟨by split <;> rfl, by split <;> rfl⟩
    · by_cases h3 : i.saadc.periph.events_started
      · simp_all [InnerTransfer.enqueue_next_transfer, h1, h2, h3]
      · simp_all [InnerTransfer.enqueue_next_transfer, h1, h2, h3]
        exact ⟨by split <;> rfl, by split <;> rfl⟩

/-- C10 witness: the frame property at the `RxBufferTooLong` rejection of an
oversized buffer on a fresh transfer. -/
theorem c10_enqueue_error_frame_witness :
    bufBig = bufBig ∧ (innerFresh.enqueue_next_transfer bufBig).inner = innerFresh
      ∧ (innerFresh.enqueue_next_transfer bufBig).trace = [] :=
  c10_enqueue_error_frame innerFresh bufBig bufBig Error.RxBufferTooLong (by decide)

/-- C1 counterexample: on a completed transfer whose hardware-reported
amount (6) differs from the requested length (8), the internal completion
step does compute `Error::Receive`, but `wait` — whose return type
`(RxB, Saadc)` has no error channel — returns exactly the buffer, the
handle and the fence/clear trace; no `Receive` error reaches the caller, so
the claim that `wait()` "returns a `Receive` error" is false at this
input (the observable error is `none` where the spec's words demand
`some Receive`). -/
theorem c1_wait_mismatch_counterexample :
    (innerMismatch.saadc.complete_adc_dma_transfer
        (wb_to_dma_slice innerMismatch.rx_buffer)).2.1
      = Except.error Error.Receive
    ∧ InnerTransfer.wait innerMismatch
      = (bufSmall, { periph := { saadcRegs0 with result_amount := 6 }, pin := none },
         [RegOp.fence, RegOp.eventsEndClear, RegOp.fence])
    ∧ InnerTransfer.wait_observed_error innerMismatch
      ≠ wait_error_per_spec innerMismatch := by
  refine ⟨by decide, by decide, by decide⟩

/-- C1 (amended): on a completed transfer (completion flag set), `wait`
always returns the filled buffer and the peripheral handle (with the
completion event cleared); the hardware-reported length is compared inside
`complete_adc_dma_transfer`, which yields a `Receive` error exactly when it
differs from the requested length — but `wait` discards that result with
`.ok()`, so the error is never returned to the caller. -/
theorem c1_wait_swallows_receive (i : InnerTransfer)
    (_hdone : i.saadc.periph.events_end = true) :
    (InnerTransfer.wait i).1 = i.rx_buffer
    ∧ (InnerTransfer.wait i).2.1
        = { i.saadc with periph := { i.saadc.periph with events_end := false } }
    ∧ ((i.saadc.complete_adc_dma_transfer (wb_to_dma_slice i.rx_buffer)).2.1
         = Except.error Error.Receive
       ↔ i.saadc.periph.result_amount ≠ (wb_to_dma_slice i.rx_buffer).len) := by
  refine ⟨rfl, ?_, ?_⟩
  · simp only [InnerTransfer.wait, Saadc.complete_adc_dma_transfer]
    split <;> rfl
  · simp only [Saadc.complete_adc_dma_transfer]
    constructor
    · intro h
      by_contra hc
      simp [hc] at h
    · intro h
      simp [h]

/-- C1 witness: the amended statement evaluated at the concrete mismatching
transfer. -/
theorem c1_wait_swallows_receive_witness :
    (InnerTransfer.wait innerMismatch).1 = innerMismatch.rx_buffer
    ∧ (InnerTransfer.wait innerMismatch).2.1
        = { innerMismatch.saadc with
              periph := { innerMismatch.saadc.periph with events_end := false } }
    ∧ ((innerMismatch.saadc.complete_adc_dma_transfer
          (wb_to_dma_slice innerMismatch.rx_buffer)).2.1
         = Except.error Error.Receive
       ↔ innerMismatch.saadc.periph.result_amount
           ≠ (wb_to_dma_slice innerMismatch.rx_buffer).len) :=
  c1_wait_swallows_receive innerMismatch (by decide)

/-- C3 counterexample: two different oversized buffers produce identical
rejection values — the error arm of `dma_transfer` is `(Saadc, Error)`,
which carries the handle and the error but not the buffer, so the original
buffer cannot be and is not returned (it is consumed). -/
theorem c3_reject_drops_buffer :
    bufBig ≠ bufBig2
    ∧ Saadc.dma_transfer saadc0 bufBig = Saadc.dma_transfer saadc0 bufBig2
    ∧ Saadc.dma_transfer saadc0 bufBig
        = (Except.error (saadc0, Error.RxBufferTooLong), []) := by
  refine ⟨by decide, by decide, by decide⟩

/-- C3 (amended): for every buffer whose DMA byte length exceeds
`EASY_DMA_SIZE`, `dma_transfer` returns `RxBufferTooLong` together with the
peripheral handle unmodified and performs no register write; the buffer is
consumed rather than returned (the error arm has no buffer component). -/
theorem c3_dma_transfer_too_long (s : Saadc) (buf : Buffer)
    (h : (wb_to_dma_slice buf).len > EASY_DMA_SIZE) :
    Saadc.dma_transfer s buf = (Except.error (s, Error.RxBufferTooLong), []) := by
  simp [Saadc.dma_transfer, h]

/-- C3 witness: the amended rejection at the concrete oversized buffer. -/
theorem c3_dma_transfer_too_long_witness :
    Saadc.dma_transfer saadc0 bufBig
      = (Except.error (saadc0, Error.RxBufferTooLong), []) :=
  c3_dma_transfer_too_long saadc0 bufBig (by decide)

/-- The register sequence C8 claims for the accepting path of
`dma_transfer`: one fence, the pointer and length writes, the
completion-event clear, the start-task write, and a second fence. -/
def c8ClaimedTrace (rx : DmaSlice) : List RegOp :=
  [.fence, .resultPtrWrite (u32 rx.ptr), .resultMaxcntWrite (u16 rx.len),
   .eventsEndClear, .tasksStartWrite 1, .fence]

/-- C8 counterexample: on a concrete accepted buffer the actual sequence
contains four fences — `start_adc_dma_transfer` fences before and after its
body, and `set_dma_values` additionally fences before the pointer write and
after the length write — so it is not exactly the claimed
fence/writes/clear/start/fence sequence. -/
theorem c8_trace_has_extra_fences :
    (Saadc.dma_transfer saadc0 bufSmall).2
      = [RegOp.fence, RegOp.fence, RegOp.resultPtrWrite 0x20000000,
         RegOp.resultMaxcntWrite 8, RegOp.fence, RegOp.eventsEndClear,
         RegOp.tasksStartWrite 1, RegOp.fence]
    ∧ (Saadc.dma_transfer saadc0 bufSmall).2
        ≠ c8ClaimedTrace (wb_to_dma_slice bufSmall) := by
  refine ⟨by decide, by decide⟩

/-- C8 (amended): on the accepting path `dma_transfer` performs, in order:
a fence, a second fence, the destination pointer write, the length write, a
fence, the completion-event clear, the write of 1 to the start-task
register, and a final fence — the claimed sequence with two additional
interior fences, the register writes in exactly the claimed order — and
returns a `Transfer` owning both the buffer and the peripheral handle. -/
theorem c8_dma_transfer_accept_trace (s : Saadc) (buf : Buffer)
    (hlen : (wb_to_dma_slice buf).len ≤ EASY_DMA_SIZE) :
    (Saadc.dma_transfer s buf).2
      = [RegOp.fence, RegOp.fence,
         RegOp.resultPtrWrite (u32 (wb_to_dma_slice buf).ptr),
         RegOp.resultMaxcntWrite (u16 (wb_to_dma_slice buf).len),
         RegOp.fence, RegOp.eventsEndClear, RegOp.tasksStartWrite 1, RegOp.fence]
    ∧ (Saadc.dma_transfer s buf).1
      = Except.ok { inner := some
                      { rx_buffer := buf,
                        saadc := (s.start_adc_dma_transfer (wb_to_dma_slice buf)).1,
                        next_queued := false } } := by
  have hgt : ¬ (wb_to_dma_slice buf).len > EASY_DMA_SIZE := Nat.not_lt.2 hlen
  constructor
  · simp [Saadc.dma_transfer, hgt, Saadc.start_adc_dma_transfer, Saadc.set_dma_values]
  · simp [Saadc.dma_transfer, hgt]

/-- C8 witness: the amended trace and result at the concrete small
buffer. -/
theorem c8_dma_transfer_accept_trace_witness :
    (Saadc.dma_transfer saadc0 bufSmall).2
      = [RegOp.fence, RegOp.fence,
         RegOp.resultPtrWrite (u32 (wb_to_dma_slice bufSmall).ptr),
         RegOp.resultMaxcntWrite (u16 (wb_to_dma_slice bufSmall).len),
         RegOp.fence, RegOp.eventsEndClear, RegOp.tasksStartWrite 1, RegOp.fence]
    ∧ (Saadc.dma_transfer saadc0 bufSmall).1
      = Except.ok { inner := some
                      { rx_buffer := bufSmall,
                        saadc := (saadc0.start_adc_dma_transfer
                                    (wb_to_dma_slice bufSmall)).1,
                        next_queued := false } } :=
  c8_dma_transfer_accept_trace saadc0 bufSmall (by decide)

/-- C2: evaluation at the failing input.  `task_addr` is
`TaskAddr(&self as *const _ as u32)`: because `self` already is the `&Self`
reference, `&self` is the address of the stack slot holding it, so
`set_task_endpoint` wires that stack address into `CH[n].TEP` instead of
the task register's own address — here the SAADC `TASKS_START` register at
`0x40007000` whose `self` reference lives at stack address `0x2000FFB0`:
the TEP write carries `0x2000FFB0`, not `0x40007000`, contradicting the
claim that the task's hardware register address is written and that only
real task/event register addresses can be wired. -/
theorem c2_set_task_endpoint_wires_stack_address :
    (ConfigurablePpi.set_task_endpoint ppiRegs0 3 taskStart stackSlot).2
      = [PpiOp.tepWrite 3 stackSlot]
    ∧ (task_addr taskStart stackSlot).val ≠ taskStart.addr
    ∧ task_addr taskStart stackSlot ≠ task_addr_per_spec taskStart := by
  refine ⟨by decide, by decide, by decide⟩

/-- C4: evaluation at the failing input.  `rip_and_grip` binds the
peripheral-facing ring-buffer halves, the scratch buffers and the
peripheral into the static context and installs the interrupt handler, but
then reaches `unimplemented!()`: it aborts instead of returning the
`(TxHandle, RxHandle)` pair its signature promises, so the application
never receives the write-path and read-path handles; the installed
`stream_handler` moreover has an empty body. -/
theorem c4_rip_and_grip_never_returns_handles :
    streamer0.rip_and_grip world0
      = ({ context := some
             { tx_recv := { ring := 1 }, tx_buf := { id := 3 },
               rx_send := { ring := 2 }, rx_buf := { id := 4 }, periph := .mk },
           handler_installed := true },
         Except.error RustAbort.unimplemented)
    ∧ stream_handler = () := by
  refine ⟨by decide, rfl⟩

end NrfHal
